import Mathlib

/-!
Shallow embedding of the security-refactoring evaluation pipeline
(`security_patterns.py`, `metrics.py`, `compliance.py`, `ast_validator.py`,
`codebleu.py`, `secure_executor.py`).

Command strings are modelled as `List Char`.  Every configured security
pattern is a literal string containing no regular-expression metacharacter
(only letters, hyphens and spaces), so Python's `re.search(pat, s,
re.IGNORECASE)` coincides with case-insensitive substring containment and
is embedded as such; the plain operator `pat in s` is embedded as
case-sensitive substring containment.  All inputs of interest are ASCII,
so lower-casing is ASCII lower-casing (`Char.toLower`).
-/

/-- Command / pattern strings, modelled as lists of characters. -/
abbrev Cmd := List Char

/-- ASCII lower-casing of a whole string (Python `re.IGNORECASE` folding). -/
def lowerStr (s : Cmd) : Cmd := s.map Char.toLower

/-- Holds (as `listStarts pat s`) when `pat` is an initial segment of `s`. -/
def listStarts : List Char → List Char → Bool
  | [], _ => true
  | _ :: _, [] => false
  | p :: ps, c :: cs => p == c && listStarts ps cs

/-- Predicate `occursIn pat s`: `pat` occurs as a contiguous substring of `s`
(Python `pat in s`, and `re.search` for metacharacter-free `pat`). -/
def occursIn (pat : List Char) : List Char → Bool
  | [] => pat.isEmpty
  | c :: rest => listStarts pat (c :: rest) || occursIn pat rest

/-- Case-insensitive match: `re.search(pat, s, re.IGNORECASE)` for a
metacharacter-free pattern. -/
def ciMatch (pat s : Cmd) : Bool := occursIn (lowerStr pat) (lowerStr s)

namespace config

/-- Embeds `config.CRITICAL_PATTERNS`. -/
def CRITICAL_PATTERNS : List Cmd :=
  ["Invoke-Expression".toList, "IEX".toList, "Invoke-Mimikatz".toList]

/-- Embeds `config.HIGH_RISK_PATTERNS`. -/
def HIGH_RISK_PATTERNS : List Cmd :=
  ["DownloadString".toList, "ExecutionPolicy Bypass".toList, "Bypass".toList]

/-- Embeds `config.MEDIUM_RISK_PATTERNS` (note the duplicated entry, as in the source). -/
def MEDIUM_RISK_PATTERNS : List Cmd :=
  ["WindowStyle Hidden".toList, "EncodedCommand".toList, "EncodedCommand".toList,
   "-EncodedCommand".toList]

/-- Embeds `config.LOW_RISK_PATTERNS`. -/
def LOW_RISK_PATTERNS : List Cmd :=
  ["Get-Process".toList, "Get-Service".toList, "Get-ChildItem".toList,
   "Get-Content".toList]

/-- Embeds `config.CRITICAL_WEIGHT`. -/
def CRITICAL_WEIGHT : ℤ := 3

/-- Embeds `config.HIGH_WEIGHT`. -/
def HIGH_WEIGHT : ℤ := 2

/-- Embeds `config.MEDIUM_WEIGHT`. -/
def MEDIUM_WEIGHT : ℤ := 1

/-- Embeds `config.LOW_WEIGHT`. -/
def LOW_WEIGHT : ℤ := 0

end config

namespace SecurityPatterns

/-- One tier's contribution to the risk score: each pattern of the tier that
matches (case-insensitively) adds the tier weight once. -/
def tierScore (pats : List Cmd) (w : ℤ) (cmd : Cmd) : ℤ :=
  (pats.map (fun p => if ciMatch p cmd then w else 0)).sum

/-- Embeds `SecurityPatterns.calculate_risk`: the four per-tier loops accumulate
`score`, which is finally capped with `min(score, 10)`. -/
def calculate_risk (cmd : Cmd) : ℤ :=
  let score :=
    tierScore config.CRITICAL_PATTERNS config.CRITICAL_WEIGHT cmd
    + tierScore config.HIGH_RISK_PATTERNS config.HIGH_WEIGHT cmd
    + tierScore config.MEDIUM_RISK_PATTERNS config.MEDIUM_WEIGHT cmd
    + tierScore config.LOW_RISK_PATTERNS config.LOW_WEIGHT cmd
  min score 10

/-- Embeds `SecurityPatterns.contains_critical`. -/
def contains_critical (cmd : Cmd) : Bool :=
  config.CRITICAL_PATTERNS.any (fun p => ciMatch p cmd)

/-- Embeds `SecurityPatterns.contains_high`. -/
def contains_high (cmd : Cmd) : Bool :=
  config.HIGH_RISK_PATTERNS.any (fun p => ciMatch p cmd)

/-- Embeds `SecurityPatterns.get_all_patterns`. -/
def get_all_patterns : List Cmd :=
  config.CRITICAL_PATTERNS ++ config.HIGH_RISK_PATTERNS ++
  config.MEDIUM_RISK_PATTERNS ++ config.LOW_RISK_PATTERNS

/-- All configured patterns paired with their tier weights (the spec's view
of the score as one sum over every configured pattern). -/
def weightedPatterns : List (Cmd × ℤ) :=
  config.CRITICAL_PATTERNS.map (fun p => (p, config.CRITICAL_WEIGHT))
  ++ config.HIGH_RISK_PATTERNS.map (fun p => (p, config.HIGH_WEIGHT))
  ++ config.MEDIUM_RISK_PATTERNS.map (fun p => (p, config.MEDIUM_WEIGHT))
  ++ config.LOW_RISK_PATTERNS.map (fun p => (p, config.LOW_WEIGHT))

/-- The spec's formula: `min(10, Σ weight(tier) over all matched patterns)`. -/
def riskFormula (cmd : Cmd) : ℤ :=
  min ((weightedPatterns.map (fun pw => if ciMatch pw.1 cmd then pw.2 else 0)).sum) 10

lemma calculate_risk_eq_formula (cmd : Cmd) :
    calculate_risk cmd = riskFormula cmd := by
  simp only [calculate_risk, riskFormula, weightedPatterns, tierScore,
    List.map_append, List.sum_append, List.map_map, Function.comp_def]

lemma tierScore_nonneg (pats : List Cmd) (w : ℤ) (hw : 0 ≤ w) (cmd : Cmd) :
    0 ≤ tierScore pats w cmd := by
  refine List.sum_nonneg ?_
  intro x hx
  simp only [List.mem_map] at hx
  obtain ⟨p, _, rfl⟩ := hx
  by_cases h : ciMatch p cmd <;> simp [h, hw]

lemma calculate_risk_nonneg (cmd : Cmd) : 0 ≤ calculate_risk cmd := by
  have h1 := tierScore_nonneg config.CRITICAL_PATTERNS config.CRITICAL_WEIGHT (by norm_num [config.CRITICAL_WEIGHT]) cmd
  have h2 := tierScore_nonneg config.HIGH_RISK_PATTERNS config.HIGH_WEIGHT (by norm_num [config.HIGH_WEIGHT]) cmd
  have h3 := tierScore_nonneg config.MEDIUM_RISK_PATTERNS config.MEDIUM_WEIGHT (by norm_num [config.MEDIUM_WEIGHT]) cmd
  have h4 := tierScore_nonneg config.LOW_RISK_PATTERNS config.LOW_WEIGHT (by norm_num [config.LOW_WEIGHT]) cmd
  have : (0:ℤ) ≤ 10 := by norm_num
  simp only [calculate_risk]
  exact le_min (by linarith) this

lemma calculate_risk_le_ten (cmd : Cmd) : calculate_risk cmd ≤ 10 :=
  min_le_right _ _

lemma tierScore_mono (pats : List Cmd) (w : ℤ) (hw : 0 ≤ w) (c1 c2 : Cmd)
    (h : ∀ p ∈ pats, ciMatch p c1 = true → ciMatch p c2 = true) :
    tierScore pats w c1 ≤ tierScore pats w c2 := by
  refine List.sum_le_sum ?_
  intro p hp
  by_cases h1 : ciMatch p c1
  · simp [h1, h p hp h1]
  · by_cases h2 : ciMatch p c2 <;> simp [h1, h2, hw]

lemma calculate_risk_mono (c1 c2 : Cmd)
    (h : ∀ p ∈ get_all_patterns, ciMatch p c1 = true → ciMatch p c2 = true) :
    calculate_risk c1 ≤ calculate_risk c2 := by
  have hc : ∀ p ∈ config.CRITICAL_PATTERNS, ciMatch p c1 = true → ciMatch p c2 = true := by
    intro p hp; exact h p (by simp [get_all_patterns, hp])
  have hh : ∀ p ∈ config.HIGH_RISK_PATTERNS, ciMatch p c1 = true → ciMatch p c2 = true := by
    intro p hp; exact h p (by simp [get_all_patterns, hp])
  have hm : ∀ p ∈ config.MEDIUM_RISK_PATTERNS, ciMatch p c1 = true → ciMatch p c2 = true := by
    intro p hp; exact h p (by simp [get_all_patterns, hp])
  have hl : ∀ p ∈ config.LOW_RISK_PATTERNS, ciMatch p c1 = true → ciMatch p c2 = true := by
    intro p hp; exact h p (by simp [get_all_patterns, hp])
  have t1 := tierScore_mono config.CRITICAL_PATTERNS config.CRITICAL_WEIGHT (by norm_num [config.CRITICAL_WEIGHT]) c1 c2 hc
  have t2 := tierScore_mono config.HIGH_RISK_PATTERNS config.HIGH_WEIGHT (by norm_num [config.HIGH_WEIGHT]) c1 c2 hh
  have t3 := tierScore_mono config.MEDIUM_RISK_PATTERNS config.MEDIUM_WEIGHT (by norm_num [config.MEDIUM_WEIGHT]) c1 c2 hm
  have t4 := tierScore_mono config.LOW_RISK_PATTERNS config.LOW_WEIGHT (by norm_num [config.LOW_WEIGHT]) c1 c2 hl
  simp only [calculate_risk]
  exact min_le_min (by linarith) (le_refl 10)

lemma tierScore_all_true (pats : List Cmd) (w : ℤ) (cmd : Cmd)
    (h : ∀ p ∈ pats, ciMatch p cmd = true) :
    tierScore pats w cmd = pats.length * w := by
  induction pats with
  | nil => simp [tierScore]
  | cons p ps ih =>
    have hp := h p (List.mem_cons_self p ps)
    have ih' := ih (fun q hq => h q (List.mem_cons_of_mem p hq))
    simp only [tierScore, List.map_cons, List.sum_cons, hp, if_true, List.length_cons] at *
    rw [ih']
    push_cast
    ring

lemma tierScore_all_false (pats : List Cmd) (w : ℤ) (cmd : Cmd)
    (h : ∀ p ∈ pats, ciMatch p cmd = false) :
    tierScore pats w cmd = 0 := by
  refine List.sum_eq_zero ?_
  intro x hx
  simp only [List.mem_map] at hx
  obtain ⟨p, hp, rfl⟩ := hx
  simp [h p hp]

lemma tierScore_zero_weight (pats : List Cmd) (cmd : Cmd) :
    tierScore pats 0 cmd = 0 := by
  refine List.sum_eq_zero ?_
  intro x hx
  simp only [List.mem_map] at hx
  obtain ⟨p, hp, rfl⟩ := hx
  simp

end SecurityPatterns

/-- Command matching all three CRITICAL patterns and no HIGH or MEDIUM one. -/
def cmdThreeCritical : Cmd := "Invoke-Expression IEX Invoke-Mimikatz".toList

/-- ASCII whitespace, the characters Python's `str.split()` and `str.strip()`
split or trim on (their Unicode extension is irrelevant to ASCII commands). -/
def isPyWS (c : Char) : Bool :=
  c = ' ' || c = '\t' || c = '\n' || c = '\x0d' || c = '\x0b' || c = '\x0c'

/-- One pass of Python `s.split()`: `acc` holds the reversed characters of
the word currently being read; whitespace flushes it. -/
def pySplitAux : List Char → List Char → List Cmd
  | [], acc => if acc.isEmpty then [] else [acc.reverse]
  | c :: rest, acc =>
    if isPyWS c then
      (if acc.isEmpty then [] else [acc.reverse]) ++ pySplitAux rest []
    else pySplitAux rest (c :: acc)

/-- Python `s.split()`: maximal runs of non-whitespace characters. -/
def pySplit (s : List Char) : List Cmd := pySplitAux s []

/-- Python `s.strip()`: drop leading and trailing whitespace. -/
def pyStrip (s : List Char) : List Char :=
  ((s.dropWhile isPyWS).reverse.dropWhile isPyWS).reverse

namespace Metrics

/-- Embeds `Metrics._count_vulnerabilities`: the number of CRITICAL and HIGH
patterns that match `code` under `re.search(pat, code, re.IGNORECASE)`. -/
def count_vulnerabilities (code : Cmd) : ℕ :=
  config.CRITICAL_PATTERNS.countP (fun p => ciMatch p code)
  + config.HIGH_RISK_PATTERNS.countP (fun p => ciMatch p code)

/-- Embeds `Metrics.vulnerability_introduction_rate` (Equation 4): percentage of
zipped pairs whose generated command has strictly more pattern-matched
vulnerabilities than its source; `0` on an empty source list. -/
def vulnerability_introduction_rate (source_codes gen_codes : List Cmd) : ℚ :=
  if source_codes = [] then 0
  else
    let count := (source_codes.zip gen_codes).countP
      (fun sg => decide (count_vulnerabilities sg.1 < count_vulnerabilities sg.2))
    ((count : ℚ) / (source_codes.length : ℚ)) * 100

/-- Embeds `Metrics.security_compliance_rate` (Equation 5): percentage of generated
commands with neither a critical nor a high pattern match; `0` on empty input. -/
def security_compliance_rate (gen_codes : List Cmd) : ℚ :=
  if gen_codes = [] then 0
  else
    let compliant := gen_codes.countP
      (fun c => !SecurityPatterns.contains_critical c && !SecurityPatterns.contains_high c)
    ((compliant : ℚ) / (gen_codes.length : ℚ)) * 100

/-- Embeds `Metrics.functional_correctness_rate`: percentage of true test results
relative to the number of generated commands; `0` on empty input. -/
def functional_correctness_rate (gen_codes : List Cmd) (test_results : List Bool) : ℚ :=
  if gen_codes = [] then 0
  else ((test_results.countP id : ℚ) / (gen_codes.length : ℚ)) * 100

end Metrics

namespace CodeBLEU

/-- Embeds `CodeBLEU.compute` from `metrics.py` (the scorer the Verifier uses):
the overlap of the two token SETS divided by the size of the reference's
token set, and `1.0` when the reference has no tokens. -/
def compute (reference candidate : Cmd) : ℚ :=
  let ref_tokens := (pySplit reference).dedup
  let cand_tokens := (pySplit candidate).dedup
  if ref_tokens = [] then 1
  else
    let overlap := (ref_tokens.filter (fun t => decide (t ∈ cand_tokens))).length
    (overlap : ℚ) / (ref_tokens.length : ℚ)

lemma compute_self (x : Cmd) : compute x x = 1 := by
  simp only [compute]
  by_cases h : (pySplit x).dedup = []
  · simp [h]
  · have hfilter : ((pySplit x).dedup.filter
        (fun t => decide (t ∈ pySplit x))) = (pySplit x).dedup :=
      List.filter_eq_self.mpr (fun a ha => by simpa [List.mem_dedup] using ha)
    have hlen : ((pySplit x).dedup.length : ℚ) ≠ 0 := by
      simpa using (List.length_pos.mpr h).ne'
    simp [h, hfilter, div_self hlen]

lemma compute_nonneg (r c : Cmd) : 0 ≤ compute r c := by
  simp only [compute]
  by_cases h : (pySplit r).dedup = []
  · simp [h]
  · simp only [h, if_false]
    positivity

lemma compute_le_one (r c : Cmd) : compute r c ≤ 1 := by
  simp only [compute]
  by_cases h : (pySplit r).dedup = []
  · simp [h]
  · simp only [h, if_false]
    rw [div_le_one (by exact_mod_cast List.length_pos.mpr h)]
    exact_mod_cast List.length_filter_le _ _

lemma compute_of_ref_no_tokens (r c : Cmd) (h : pySplit r = []) : compute r c = 1 := by
  simp [compute, h]

end CodeBLEU

namespace CodeBLEUCalculator

/-- ASCII letters, the class `[A-Za-z]` of the tokenizer's regex. -/
def isAsciiLetter (c : Char) : Bool :=
  ('A' ≤ c && c ≤ 'Z') || ('a' ≤ c && c ≤ 'z')

/-- A character of `[A-Za-z0-9_-]`, the tail of an identifier-like token. -/
def isIdentTail (c : Char) : Bool :=
  isAsciiLetter c || ('0' ≤ c && c ≤ '9') || c = '_' || c = '-'

/-- One pass of `re.findall(r'[A-Za-z][A-Za-z0-9_-]*|\S', code)`: `acc`
holds the reversed characters of the identifier-like run being read (empty
outside such a run); a non-continuing character flushes the run and is then
handled fresh. -/
def tokenizeAux : List Char → List Char → List Cmd
  | [], acc => if acc.isEmpty then [] else [acc.reverse]
  | c :: rest, acc =>
    if !acc.isEmpty && isIdentTail c then tokenizeAux rest (c :: acc)
    else
      (if acc.isEmpty then [] else [acc.reverse]) ++
      (if isAsciiLetter c then tokenizeAux rest [c]
       else if !isPyWS c then [c] :: tokenizeAux rest []
       else tokenizeAux rest [])

/-- Embeds `CodeBLEUCalculator._tokenize`:
`re.findall(r'[A-Za-z][A-Za-z0-9_-]*|\S', code)`.  Left to right: a letter
starts a greedy identifier-like run, any other non-whitespace character is a
single-character token, whitespace separates. -/
def tokenize (code : List Char) : List Cmd := tokenizeAux code []

/-- The fallback branch of `CodeBLEUCalculator._bleu` (taken when the
external BLEU library is unavailable): token-set overlap against the
reference's token set, `1.0` when the reference has no tokens.  The other
branch calls the external library and is represented by an arbitrary
`bleuFn` collaborator below. -/
def fallbackBleu (reference candidate : Cmd) : ℚ :=
  let ref_tokens := tokenize reference
  let cand_tokens := tokenize candidate
  if ref_tokens = [] then 1
  else
    let overlap := (ref_tokens.dedup.filter (fun t => decide (t ∈ cand_tokens))).length
    (overlap : ℚ) / (ref_tokens.dedup.length : ℚ)

/-- Multiplicity `Counter[k]` of `k` in a list of node-type tags. -/
def countOcc (k : Cmd) (l : List Cmd) : ℕ := l.countP (fun a => decide (a = k))

lemma countOcc_eq_count (k : Cmd) (l : List Cmd) :
    countOcc k l = @List.count Cmd instBEqOfDecidableEq k l := rfl

/-- Embeds `CodeBLEUCalculator._ast_similarity`: multiset Jaccard index of the AST
node-type lists returned by the external parser (`nodeFn`, which returns
`[]` on any parser error, as `_get_ast_node_types` does). -/
def astSimilarity (nodeFn : Cmd → List Cmd) (ref cand : Cmd) : ℚ :=
  let ref_nodes := nodeFn ref
  let cand_nodes := nodeFn cand
  if ref_nodes = [] then (if cand_nodes = [] then 1 else 0)
  else
    let inter := (ref_nodes.dedup.map
      (fun k => min (countOcc k ref_nodes) (countOcc k cand_nodes))).sum
    let uni := ((ref_nodes ++ cand_nodes).dedup.map
      (fun k => max (countOcc k ref_nodes) (countOcc k cand_nodes))).sum
    if 0 < uni then (inter : ℚ) / (uni : ℚ) else 0

/-- Embeds `CodeBLEUCalculator.compute` with the default weight pair `(0.5, 0.5)`:
the clamped weighted combination of the token sub-score (`bleuFn`, the
external BLEU library or the in-repository fallback) and the structural
sub-score. -/
def compute (bleuFn : Cmd → Cmd → ℚ) (nodeFn : Cmd → List Cmd) (ref cand : Cmd) : ℚ :=
  min (max ((1/2 : ℚ) * bleuFn ref cand + (1/2 : ℚ) * astSimilarity nodeFn ref cand) 0) 1

lemma fallbackBleu_self (x : Cmd) : fallbackBleu x x = 1 := by
  simp only [fallbackBleu]
  by_cases h : tokenize x = []
  · simp [h]
  · have hfilter : ((tokenize x).dedup.filter
        (fun t => decide (t ∈ tokenize x))) = (tokenize x).dedup :=
      List.filter_eq_self.mpr (fun a ha => by simpa [List.mem_dedup] using ha)
    have hd : (tokenize x).dedup ≠ [] := by
      simpa [List.dedup_eq_nil] using h
    have hlen : (((tokenize x).dedup.length : ℚ)) ≠ 0 := by
      simpa using (List.length_pos.mpr hd).ne'
    simp [h, hfilter, div_self hlen]

lemma union_eq_of_subset {α : Type} [DecidableEq α] {l d : List α}
    (h : ∀ a ∈ l, a ∈ d) : l ∪ d = d := by
  induction l with
  | nil => rfl
  | cons a l ih =>
    have ha : a ∈ d := h a (List.mem_cons_self a l)
    have ih' := ih (fun b hb => h b (List.mem_cons_of_mem a hb))
    simp only [List.cons_union, ih']
    exact List.insert_of_mem ha

lemma dedup_append_self (l : List Cmd) : (l ++ l).dedup = l.dedup := by
  rw [List.dedup_append]
  exact union_eq_of_subset (fun a ha => List.mem_dedup.mpr ha)

lemma sum_countOcc_dedup (l : List Cmd) :
    (l.dedup.map (fun k => countOcc k l)).sum = l.length := by
  have := @List.sum_map_count_dedup_eq_length Cmd _ l
  simpa [countOcc_eq_count] using this

lemma astSimilarity_self (nodeFn : Cmd → List Cmd) (x : Cmd) :
    astSimilarity nodeFn x x = 1 := by
  simp only [astSimilarity]
  by_cases h : nodeFn x = []
  · simp [h]
  · rw [if_neg h, dedup_append_self]
    simp only [min_self, max_self]
    have hsum := sum_countOcc_dedup (nodeFn x)
    rw [hsum]
    have hpos : 0 < (nodeFn x).length := List.length_pos.mpr h
    have hne : (((nodeFn x).length : ℚ)) ≠ 0 := by exact_mod_cast hpos.ne'
    simp [hpos, div_self hne]

lemma compute_mem_unit (bleuFn : Cmd → Cmd → ℚ) (nodeFn : Cmd → List Cmd)
    (ref cand : Cmd) : 0 ≤ compute bleuFn nodeFn ref cand
    ∧ compute bleuFn nodeFn ref cand ≤ 1 := by
  constructor
  · exact le_min (le_max_right _ _) (by norm_num)
  · exact min_le_right _ _

lemma compute_fallback_self (nodeFn : Cmd → List Cmd) (x : Cmd) :
    compute fallbackBleu nodeFn x x = 1 := by
  simp [compute, fallbackBleu_self, astSimilarity_self]
  norm_num

end CodeBLEUCalculator

namespace SecurityPatterns

/-- A quote character, `["\']` in the sanitizer's regex (codepoints 34, 39). -/
def isQuoteChar (c : Char) : Bool := c = Char.ofNat 34 || c = Char.ofNat 39

/-- After an opening quote and a first inner character, the lazy `.+?` grows
the inner text one character at a time; the first later quote character
closes the match, a newline makes the attempt fail (`.` matches neither). -/
def scanClose (acc : List Char) : List Char → Option (List Char)
  | [] => none
  | c :: rest =>
    if isQuoteChar c then some acc.reverse
    else if c = '\n' then none
    else scanClose (c :: acc) rest

/-- A match attempt starting right after an opening quote: `.+?` must consume
at least one non-newline character before a closing quote is considered. -/
def tryClose : List Char → Option (List Char)
  | [] => none
  | c0 :: rest => if c0 = '\n' then none else scanClose [c0] rest

/-- Embeds `re.search(r'["\'](.+?)["\']', command)`: the leftmost position holding a
quote character at which a (lazy) close succeeds wins; the returned value is
`group(1)`, the inner text. `none` when no position matches. -/
def searchQuoted : List Char → Option (List Char)
  | [] => none
  | c :: rest =>
    if isQuoteChar c then
      match tryClose rest with
      | some inner => some inner
      | none => searchQuoted rest
    else searchQuoted rest

/-- The literal `"DownloadString"`. -/
def dsPat : Cmd := "DownloadString".toList

/-- Embeds `re.sub(r'DownloadString', 'Invoke-RestMethod', command)`: case-sensitive,
leftmost, non-overlapping replacement of every occurrence. -/
def replaceDS : List Char → List Char
  | [] => []
  | c :: rest =>
    if listStarts dsPat (c :: rest) then
      ("Invoke-RestMethod".toList) ++ replaceDS ((c :: rest).drop dsPat.length)
    else c :: replaceDS rest
termination_by l => l.length
decreasing_by
  · have h14 : dsPat.length = 14 := rfl
    simp only [List.length_drop, List.length_cons, h14]
    omega
  · simp [Nat.lt_succ_iff]

/-- The second rule of `apply_parameterized_transformation`, reached whenever
the first rule does not return: rewrite `DownloadString` when the pattern
names it, otherwise return the command unchanged. -/
def downloadRule (command pat : Cmd) : Cmd :=
  if occursIn dsPat pat then replaceDS command else command

/-- Embeds `SecurityPatterns.apply_parameterized_transformation`.  If the pattern
contains `"Invoke-Expression"` or `"IEX"` (case-sensitive `in`), the first
quoted substring of the command is re-emitted as `"& { inner }"`; when no
quoted substring exists, control falls through to the `DownloadString` rule,
and otherwise the command is returned unchanged. -/
def apply_parameterized_transformation (command pat : Cmd) : Cmd :=
  if occursIn ("Invoke-Expression".toList) pat || occursIn ("IEX".toList) pat then
    match searchQuoted command with
    | some inner => ("& \x7b ".toList) ++ inner ++ (" \x7d".toList)
    | none => downloadRule command pat
  else downloadRule command pat

end SecurityPatterns

namespace ASTValidator

/-- What Python sees after `json.loads(result.stdout)` and
`data.get('Nodes', [])`:  either a list of node-type tags, or the message
`str(e)` of the exception raised by loading or inspecting malformed output. -/
inductive JsonNodes
  | nodes (tags : List Cmd)
  | malformed (msg : Cmd)

/-- Outcome of the external parser subprocess: normal completion with a
return code and (decoded) output, or an exception raised by the invocation
itself — `subprocess.TimeoutExpired` among others — carrying `str(e)`. -/
inductive ParserOutcome
  | exit (rc : ℤ) (output : JsonNodes)
  | exc (msg : Cmd)

/-- The dict returned by `ASTValidator.validate`. -/
structure ValidationResult where
  pass : Bool
  vulnerabilities : List Cmd
  node_types : List Cmd

/-- The synthetic tag returned on a non-zero parser exit. -/
def parser_error_tag : Cmd := "Parser error".toList

/-- Embeds `ASTValidator._detect_vulnerabilities`: map node types (plus two textual
signals checked with case-sensitive `in`) to CWE tags. -/
def detect_vulnerabilities (node_types : List Cmd) (code : Cmd) : List Cmd :=
  (if ("InvokeExpressionAst".toList) ∈ node_types then
    ["CWE-78: OS Command Injection (Invoke-Expression)".toList] else [])
  ++ (if ("MemberExpressionAst".toList) ∈ node_types
        ∧ occursIn ("DownloadString".toList) code = true then
    ["CWE-494: Download of Code Without Integrity Check".toList] else [])
  ++ (if occursIn ("-EncodedCommand".toList) code = true
        ∨ ("EncodedCommand".toList) ∈ node_types then
    ["CWE-693: Protection Mechanism Failure (Encoded Command)".toList] else [])

/-- Embeds `ASTValidator.validate` given the behaviour `parser` of the external
subprocess on each input.  A non-zero exit yields the synthetic
`'Parser error'` tag; any exception `e` (timeout, malformed JSON) is caught
and yields `[str(e)]`; both failure shapes carry no node types.  The
temporary file cleanup in its `finally` block has no observable effect here. -/
def validate (parser : Cmd → ParserOutcome) (code : Cmd) : ValidationResult :=
  match parser code with
  | .exc msg => ⟨false, [msg], []⟩
  | .exit rc output =>
    if rc ≠ 0 then ⟨false, [parser_error_tag], []⟩
    else
      match output with
      | .malformed msg => ⟨false, [msg], []⟩
      | .nodes node_types =>
        let vulns := detect_vulnerabilities node_types code
        ⟨vulns.isEmpty, vulns, node_types⟩

/-- The failure modes of the external parser invocation: an exception
(timeout among them), a non-zero exit, or malformed output. -/
def ParserOutcome.isFailure : ParserOutcome → Prop
  | .exc _ => True
  | .exit _ (.malformed _) => True
  | .exit rc (.nodes _) => rc ≠ 0

/-- The error strings a `validate` failure can surface (used to state that
the external parser does not collide with the Verifier's fixed tags). -/
def ParserOutcome.msgs : ParserOutcome → List Cmd
  | .exc m => [m]
  | .exit _ (.malformed m) => [m]
  | .exit _ (.nodes _) => []

end ASTValidator

namespace SecureExecutor

/-- Outcome of `subprocess.Popen` plus `communicate`: a completed process
with exit code and captured streams, or an exception raised by the
invocation (e.g. `FileNotFoundError` when the interpreter is missing). -/
inductive ProcOutcome
  | ok (exit_code : ℤ) (stdout stderr : Cmd)
  | exc (msg : Cmd)

/-- Observable result of `SecureExecutor.execute_script`: the returned triple
(`none` when the exception propagates to the caller) and whether the
temporary script file written at entry still exists afterwards. -/
structure ScriptRun where
  result : Option (ℤ × Cmd × Cmd)
  tempFileLeft : Bool

/-- Embeds `SecureExecutor.execute_script`: writes `script_content` to the sandbox
file, runs the process, then calls `unlink`.  The source has no
`try`/`finally` around the invocation, so `unlink` runs only on the normal
path; when `popen` raises, the exception propagates with the file on disk. -/
def execute_script (popen : Cmd → ProcOutcome) (script_content : Cmd) : ScriptRun :=
  match popen script_content with
  | .ok rc out err => ⟨some (rc, out, err), false⟩
  | .exc _ => ⟨none, true⟩

/-- A `popen` behaviour whose invocation raises (the PowerShell executable
is absent from PATH). -/
def popenRaises : Cmd → ProcOutcome :=
  fun _ => .exc ("FileNotFoundError: No such file or directory: pwsh".toList)

/-- A `popen` behaviour that completes normally with exit code 0. -/
def popenOk : Cmd → ProcOutcome := fun _ => .ok 0 [] []

end SecureExecutor

namespace ComplianceVerifier

/-- Embeds `ComplianceVerifier._count_vulnerabilities`: unlike the Metrics version,
it tests each CRITICAL and HIGH pattern with the case-sensitive substring
operator `pat in code`. -/
def count_vulnerabilities (code : Cmd) : ℕ :=
  config.CRITICAL_PATTERNS.countP (fun p => occursIn p code)
  + config.HIGH_RISK_PATTERNS.countP (fun p => occursIn p code)

/-- A sandbox test case; `expected` is `tc.get('expected', '')`. -/
structure TestCase where
  expected : Cmd

/-- The issue tag appended by the pattern layer. -/
def NEW_VULNERABILITY_INTRODUCED : Cmd := "NEW_VULNERABILITY_INTRODUCED".toList

/-- The issue tag appended by the sandbox layer. -/
def FUNCTIONAL_INCORRECTNESS : Cmd := "FUNCTIONAL_INCORRECTNESS".toList

/-- The issue tag appended by the similarity layer. -/
def SEMANTIC_DRIFT : Cmd := "SEMANTIC_DRIFT".toList

/-- Layer 1 (static analysis): extend with the validator's vulnerabilities
when its `pass` is false. -/
def layer1Issues (parser : Cmd → ASTValidator.ParserOutcome) (generated : Cmd) : List Cmd :=
  let ast_result := ASTValidator.validate parser generated
  if ast_result.pass then [] else ast_result.vulnerabilities

/-- Layer 2 (pattern matching): append `NEW_VULNERABILITY_INTRODUCED` when
the candidate's case-sensitive count strictly exceeds the source's. -/
def layer2Issues (generated source : Cmd) : List Cmd :=
  if count_vulnerabilities source < count_vulnerabilities generated then
    [NEW_VULNERABILITY_INTRODUCED]
  else []

/-- Layer 3 (sandboxed execution, only when test cases are supplied): run the
generated script per case; on the first non-zero exit or stripped-output
mismatch append `FUNCTIONAL_INCORRECTNESS` and break. -/
def layer3Issues (sandbox : Cmd → ℤ × Cmd × Cmd) (generated : Cmd) :
    List TestCase → List Cmd
  | [] => []
  | tc :: rest =>
    let r := sandbox generated
    if r.1 ≠ 0 ∨ pyStrip r.2.1 ≠ pyStrip tc.expected then [FUNCTIONAL_INCORRECTNESS]
    else layer3Issues sandbox generated rest

/-- Layer 4 (semantic preservation): the similarity of source and candidate,
computed by `CodeBLEU.compute` from `metrics.py`, below the 0.5 threshold
appends `SEMANTIC_DRIFT`. -/
def layer4Issues (source generated : Cmd) : List Cmd :=
  if CodeBLEU.compute source generated < (1/2 : ℚ) then [SEMANTIC_DRIFT] else []

/-- Embeds `ComplianceVerifier.verify`: the four layers append their issues in
order (`test_cases = []` plays Python's `None`/empty default, skipping the
sandbox layer), and `compliant` holds iff the accumulated list is empty. -/
def verify (parser : Cmd → ASTValidator.ParserOutcome) (sandbox : Cmd → ℤ × Cmd × Cmd)
    (generated source : Cmd) (test_cases : List TestCase) : Bool × List Cmd :=
  let issues :=
    layer1Issues parser generated
    ++ layer2Issues generated source
    ++ layer3Issues sandbox generated test_cases
    ++ layer4Issues source generated
  (issues.isEmpty, issues)

/-- A parser behaviour that always succeeds with an empty node list. -/
def parserOkEmpty : Cmd → ASTValidator.ParserOutcome :=
  fun _ => .exit 0 (.nodes [])

/-- A parser behaviour that always exits non-zero. -/
def parserFails : Cmd → ASTValidator.ParserOutcome :=
  fun _ => .exit 1 (.nodes [])

/-- A sandbox behaviour that always succeeds with empty output. -/
def sandboxStub : Cmd → ℤ × Cmd × Cmd := fun _ => (0, [], [])

end ComplianceVerifier
/-- A node-type collaborator for witnesses: every parse yields no node types. -/
def nodeFnStub : Cmd → List Cmd := fun _ => []

namespace ComplianceVerifier

lemma layer4Issues_self (s : Cmd) : layer4Issues s s = [] := by
  simp only [layer4Issues, CodeBLEU.compute_self]
  norm_num

lemma layer4Issues_no_tokens (s g : Cmd) (h : pySplit s = []) :
    layer4Issues s g = [] := by
  simp only [layer4Issues, CodeBLEU.compute_of_ref_no_tokens s g h]
  norm_num

lemma detect_vulnerabilities_mem (nts : List Cmd) (code v : Cmd)
    (hv : v ∈ ASTValidator.detect_vulnerabilities nts code) :
    v = ("CWE-78: OS Command Injection (Invoke-Expression)".toList)
    ∨ v = ("CWE-494: Download of Code Without Integrity Check".toList)
    ∨ v = ("CWE-693: Protection Mechanism Failure (Encoded Command)".toList) := by
  simp only [ASTValidator.detect_vulnerabilities, List.mem_append] at hv
  rcases hv with (h | h) | h <;> split_ifs at h <;> simp_all

lemma tag_notMem_layer1 (parser : Cmd → ASTValidator.ParserOutcome) (g : Cmd)
    (hmsg : ∀ m ∈ (parser g).msgs, m ≠ NEW_VULNERABILITY_INTRODUCED) :
    NEW_VULNERABILITY_INTRODUCED ∉ layer1Issues parser g := by
  intro hmem
  cases hp : parser g with
  | exc m =>
    have hm : m ≠ NEW_VULNERABILITY_INTRODUCED :=
      hmsg m (by simp [ASTValidator.ParserOutcome.msgs, hp])
    simp [layer1Issues, ASTValidator.validate, hp] at hmem
    exact hm hmem.symm
  | exit rc out =>
    by_cases hrc : rc = 0
    · cases out with
      | malformed m =>
        have hm : m ≠ NEW_VULNERABILITY_INTRODUCED :=
          hmsg m (by simp [ASTValidator.ParserOutcome.msgs, hp])
        simp [layer1Issues, ASTValidator.validate, hp, hrc] at hmem
        exact hm hmem.symm
      | nodes nts =>
        by_cases hD : (ASTValidator.detect_vulnerabilities nts g).isEmpty
        · simp [layer1Issues, ASTValidator.validate, hp, hrc, hD] at hmem
        · simp [layer1Issues, ASTValidator.validate, hp, hrc, hD] at hmem
          rcases detect_vulnerabilities_mem nts g _ hmem with h | h | h <;>
            exact absurd h (by decide)
    · simp [layer1Issues, ASTValidator.validate, hp, hrc] at hmem
      exact absurd hmem (by decide)

lemma layer3Issues_mem (sandbox : Cmd → ℤ × Cmd × Cmd) (g : Cmd)
    (tcs : List TestCase) (v : Cmd) (hv : v ∈ layer3Issues sandbox g tcs) :
    v = FUNCTIONAL_INCORRECTNESS := by
  induction tcs with
  | nil => simp [layer3Issues] at hv
  | cons tc rest ih =>
    simp only [layer3Issues] at hv
    split_ifs at hv with h
    · simpa using hv
    · exact ih hv

lemma layer4Issues_mem (s g v : Cmd) (hv : v ∈ layer4Issues s g) :
    v = SEMANTIC_DRIFT := by
  simp only [layer4Issues] at hv
  split_ifs at hv with h
  · simpa using hv
  · simp at hv

lemma verify_eq (parser : Cmd → ASTValidator.ParserOutcome)
    (sandbox : Cmd → ℤ × Cmd × Cmd) (g s : Cmd) (tcs : List TestCase) :
    verify parser sandbox g s tcs
      = ((layer1Issues parser g ++ layer2Issues g s ++ layer3Issues sandbox g tcs
            ++ layer4Issues s g).isEmpty,
          layer1Issues parser g ++ layer2Issues g s ++ layer3Issues sandbox g tcs
            ++ layer4Issues s g) := rfl

lemma tag_mem_layer2_iff (g s : Cmd) :
    NEW_VULNERABILITY_INTRODUCED ∈ layer2Issues g s
      ↔ count_vulnerabilities s < count_vulnerabilities g := by
  simp only [layer2Issues]
  split_ifs with h <;> simp [h]

end ComplianceVerifier

/-! ## Claim theorems -/

/-- C4. `calculate_risk` equals `min(10, Σ tier weights over all matched
configured patterns)` (one contribution per configured pattern entry,
matched case-insensitively); the result always lies in `[0, 10]`; and a
command matching all three CRITICAL patterns and no HIGH or MEDIUM pattern
scores exactly `9`. -/
theorem C4_calculate_risk_is_capped_weight_sum :
    (∀ cmd : Cmd,
        SecurityPatterns.calculate_risk cmd = SecurityPatterns.riskFormula cmd
        ∧ 0 ≤ SecurityPatterns.calculate_risk cmd
        ∧ SecurityPatterns.calculate_risk cmd ≤ 10)
    ∧ (∀ cmd : Cmd,
        (∀ p ∈ config.CRITICAL_PATTERNS, ciMatch p cmd = true) →
        (∀ p ∈ config.HIGH_RISK_PATTERNS, ciMatch p cmd = false) →
        (∀ p ∈ config.MEDIUM_RISK_PATTERNS, ciMatch p cmd = false) →
        SecurityPatterns.calculate_risk cmd = 9) := by
  constructor
  · intro cmd
    exact ⟨SecurityPatterns.calculate_risk_eq_formula cmd,
      SecurityPatterns.calculate_risk_nonneg cmd,
      SecurityPatterns.calculate_risk_le_ten cmd⟩
  · intro cmd hc hh hm
    have e1 := SecurityPatterns.tierScore_all_true config.CRITICAL_PATTERNS
      config.CRITICAL_WEIGHT cmd hc
    have e2 := SecurityPatterns.tierScore_all_false config.HIGH_RISK_PATTERNS
      config.HIGH_WEIGHT cmd hh
    have e3 := SecurityPatterns.tierScore_all_false config.MEDIUM_RISK_PATTERNS
      config.MEDIUM_WEIGHT cmd hm
    have e4 : SecurityPatterns.tierScore config.LOW_RISK_PATTERNS config.LOW_WEIGHT cmd = 0 := by
      have := SecurityPatterns.tierScore_zero_weight config.LOW_RISK_PATTERNS cmd
      simpa [config.LOW_WEIGHT] using this
    simp only [SecurityPatterns.calculate_risk, e1, e2, e3, e4]
    norm_num [config.CRITICAL_PATTERNS, config.CRITICAL_WEIGHT]

/-- Witness for C4 at a concrete command matching exactly the three
CRITICAL patterns. -/
theorem C4_witness :
    (∀ p ∈ config.CRITICAL_PATTERNS, ciMatch p cmdThreeCritical = true)
    ∧ (∀ p ∈ config.HIGH_RISK_PATTERNS, ciMatch p cmdThreeCritical = false)
    ∧ (∀ p ∈ config.MEDIUM_RISK_PATTERNS, ciMatch p cmdThreeCritical = false)
    ∧ SecurityPatterns.calculate_risk cmdThreeCritical = 9 :=
  ⟨by decide, by decide, by decide,
    C4_calculate_risk_is_capped_weight_sum.2 cmdThreeCritical
      (by decide) (by decide) (by decide)⟩

/-- C8. `calculate_risk` is monotone in the set of matched patterns: if every
configured pattern matching `c1` also matches `c2`, then
`calculate_risk c1 ≤ calculate_risk c2`, and both scores lie in `[0, 10]`. -/
theorem C8_calculate_risk_monotone (c1 c2 : Cmd)
    (h : ∀ p ∈ SecurityPatterns.get_all_patterns,
        ciMatch p c1 = true → ciMatch p c2 = true) :
    SecurityPatterns.calculate_risk c1 ≤ SecurityPatterns.calculate_risk c2
    ∧ 0 ≤ SecurityPatterns.calculate_risk c1
    ∧ SecurityPatterns.calculate_risk c1 ≤ 10
    ∧ 0 ≤ SecurityPatterns.calculate_risk c2
    ∧ SecurityPatterns.calculate_risk c2 ≤ 10 :=
  ⟨SecurityPatterns.calculate_risk_mono c1 c2 h,
    SecurityPatterns.calculate_risk_nonneg c1,
    SecurityPatterns.calculate_risk_le_ten c1,
    SecurityPatterns.calculate_risk_nonneg c2,
    SecurityPatterns.calculate_risk_le_ten c2⟩


/-- Witness for C8: `"IEX"` versus `"IEX IEX"` (an extra occurrence of an
already-matched pattern). -/
theorem C8_witness :
    (∀ p ∈ SecurityPatterns.get_all_patterns,
        ciMatch p ("IEX".toList) = true → ciMatch p ("IEX IEX".toList) = true)
    ∧ SecurityPatterns.calculate_risk ("IEX".toList)
        ≤ SecurityPatterns.calculate_risk ("IEX IEX".toList) :=
  ⟨by decide,
    (C8_calculate_risk_monotone ("IEX".toList) ("IEX IEX".toList) (by decide)).1⟩

/-- C1, counterexample.  The Verifier's pattern layer and the VIR metric do
not use the same count: on candidate `"iex"` against an empty source, the
case-insensitive metric count rises from 0 to 1 (the pair counts toward
VIR), yet the Verifier — whose layer counts by case-sensitive substring
containment — does not append `NEW_VULNERABILITY_INTRODUCED`. -/
theorem C1_counterexample :
    Metrics.count_vulnerabilities ("iex".toList) = 1
    ∧ Metrics.count_vulnerabilities ([] : Cmd) = 0
    ∧ ComplianceVerifier.count_vulnerabilities ("iex".toList) = 0
    ∧ ComplianceVerifier.NEW_VULNERABILITY_INTRODUCED
        ∉ (ComplianceVerifier.verify ComplianceVerifier.parserOkEmpty
            ComplianceVerifier.sandboxStub ("iex".toList) ([] : Cmd) []).2 := by
  refine ⟨by decide, by decide, by decide, ?_⟩
  have h1 : ComplianceVerifier.layer1Issues ComplianceVerifier.parserOkEmpty
      ("iex".toList) = [] := by decide
  have h2 : ComplianceVerifier.layer2Issues ("iex".toList) ([] : Cmd) = [] := by decide
  have h3 : ComplianceVerifier.layer3Issues ComplianceVerifier.sandboxStub
      ("iex".toList) [] = [] := rfl
  have h4 := ComplianceVerifier.layer4Issues_no_tokens ([] : Cmd) ("iex".toList) (by decide)
  rw [ComplianceVerifier.verify_eq, h1, h2, h3, h4]
  simp

/-- C1, amended.  The Verifier appends `NEW_VULNERABILITY_INTRODUCED` if and
only if the candidate's case-sensitive substring count of CRITICAL and HIGH
patterns strictly exceeds the source's (for any parser whose error strings
are not themselves that tag); this count is not the case-insensitive
regular-expression count used by the VIR metric. -/
theorem C1_amended_tag_iff_case_sensitive_count
    (parser : Cmd → ASTValidator.ParserOutcome) (sandbox : Cmd → ℤ × Cmd × Cmd)
    (generated source : Cmd) (test_cases : List ComplianceVerifier.TestCase)
    (hmsg : ∀ m ∈ (parser generated).msgs,
        m ≠ ComplianceVerifier.NEW_VULNERABILITY_INTRODUCED) :
    ComplianceVerifier.NEW_VULNERABILITY_INTRODUCED
        ∈ (ComplianceVerifier.verify parser sandbox generated source test_cases).2
      ↔ ComplianceVerifier.count_vulnerabilities source
          < ComplianceVerifier.count_vulnerabilities generated := by
  have h1 := ComplianceVerifier.tag_notMem_layer1 parser generated hmsg
  constructor
  · intro hmem
    simp only [ComplianceVerifier.verify, List.mem_append] at hmem
    rcases hmem with ((hm | hm) | hm) | hm
    · exact absurd hm h1
    · exact (ComplianceVerifier.tag_mem_layer2_iff _ _).1 hm
    · exact absurd (ComplianceVerifier.layer3Issues_mem _ _ _ _ hm) (by decide)
    · exact absurd (ComplianceVerifier.layer4Issues_mem _ _ _ hm) (by decide)
  · intro hlt
    simp only [ComplianceVerifier.verify, List.mem_append]
    exact Or.inl (Or.inl (Or.inr ((ComplianceVerifier.tag_mem_layer2_iff _ _).2 hlt)))

/-- Witness for the amended C1 at a concrete pair (`"IEX"` against an empty
source) with a concrete well-behaved parser. -/
theorem C1_witness :
    ComplianceVerifier.NEW_VULNERABILITY_INTRODUCED
        ∈ (ComplianceVerifier.verify ComplianceVerifier.parserOkEmpty
            ComplianceVerifier.sandboxStub ("IEX".toList) ([] : Cmd) []).2
      ↔ ComplianceVerifier.count_vulnerabilities ([] : Cmd)
          < ComplianceVerifier.count_vulnerabilities ("IEX".toList) :=
  C1_amended_tag_iff_case_sensitive_count ComplianceVerifier.parserOkEmpty
    ComplianceVerifier.sandboxStub ("IEX".toList) ([] : Cmd) []
    (fun m hm => absurd hm (List.not_mem_nil m))

/-- C2, counterexample.  `verify(c, c, None)` is not compliant for every
zero-pattern-match command `c`: the structural layer also contributes, and
when the external parser exits non-zero on `"Get-Date"` (which matches no
configured pattern) the verdict is `(false, ['Parser error'])`. -/
theorem C2_counterexample :
    (∀ p ∈ SecurityPatterns.get_all_patterns, ciMatch p ("Get-Date".toList) = false)
    ∧ ComplianceVerifier.verify ComplianceVerifier.parserFails
        ComplianceVerifier.sandboxStub ("Get-Date".toList) ("Get-Date".toList) []
        = (false, [ASTValidator.parser_error_tag]) := by
  refine ⟨by decide, ?_⟩
  have h1 : ComplianceVerifier.layer1Issues ComplianceVerifier.parserFails
      ("Get-Date".toList) = [ASTValidator.parser_error_tag] := rfl
  have h2 : ComplianceVerifier.layer2Issues ("Get-Date".toList) ("Get-Date".toList)
      = [] := by decide
  have h3 : ComplianceVerifier.layer3Issues ComplianceVerifier.sandboxStub
      ("Get-Date".toList) [] = [] := rfl
  have h4 := ComplianceVerifier.layer4Issues_self ("Get-Date".toList)
  rw [ComplianceVerifier.verify_eq, h1, h2, h3, h4]
  simp

/-- C2, amended.  For every command `c` matching zero configured patterns,
if additionally the structural-validation layer passes on `c`, then
`verify(c, c, None)` returns `compliant = true` with an empty issue list:
the pattern layer sees no strict increase, the sandbox layer is skipped, and
the self-similarity 1.0 clears the 0.5 threshold. -/
theorem C2_amended_verify_self_compliant
    (parser : Cmd → ASTValidator.ParserOutcome) (sandbox : Cmd → ℤ × Cmd × Cmd)
    (c : Cmd)
    (_hz : ∀ p ∈ SecurityPatterns.get_all_patterns, ciMatch p c = false)
    (hpass : (ASTValidator.validate parser c).pass = true) :
    ComplianceVerifier.verify parser sandbox c c [] = (true, []) := by
  have h1 : ComplianceVerifier.layer1Issues parser c = [] := by
    simp [ComplianceVerifier.layer1Issues, hpass]
  have h2 : ComplianceVerifier.layer2Issues c c = [] := by
    simp [ComplianceVerifier.layer2Issues]
  have h4 := ComplianceVerifier.layer4Issues_self c
  simp [ComplianceVerifier.verify, h1, h2, h4, ComplianceVerifier.layer3Issues]

/-- Witness for the amended C2: `"Get-Date"` matches no configured pattern
and a successfully parsing collaborator yields a compliant empty verdict. -/
theorem C2_witness :
    (∀ p ∈ SecurityPatterns.get_all_patterns, ciMatch p ("Get-Date".toList) = false)
    ∧ (ASTValidator.validate ComplianceVerifier.parserOkEmpty ("Get-Date".toList)).pass = true
    ∧ ComplianceVerifier.verify ComplianceVerifier.parserOkEmpty
        ComplianceVerifier.sandboxStub ("Get-Date".toList) ("Get-Date".toList) []
        = (true, []) :=
  ⟨by decide, by decide,
    C2_amended_verify_self_compliant ComplianceVerifier.parserOkEmpty
      ComplianceVerifier.sandboxStub ("Get-Date".toList) (by decide) (by decide)⟩

/-- C3.  The Structural Validator fails closed: whenever the external parser
invocation ends in a non-zero exit, malformed output, or an exception such
as a timeout, `validate` returns `pass = false`, a single-element (hence
non-empty) vulnerability list carrying the synthetic parser-error string,
and an empty node-type list; such a failure is never reported as
`pass = true`. -/
theorem C3_validator_fail_closed
    (parser : Cmd → ASTValidator.ParserOutcome) (code : Cmd)
    (hfail : (parser code).isFailure) :
    (ASTValidator.validate parser code).pass = false
    ∧ (ASTValidator.validate parser code).vulnerabilities.length = 1
    ∧ (ASTValidator.validate parser code).node_types = [] := by
  cases hp : parser code with
  | exc m => simp [ASTValidator.validate, hp]
  | exit rc out =>
    rw [hp] at hfail
    by_cases hrc : rc = 0
    · cases out with
      | malformed m => simp [ASTValidator.validate, hp, hrc]
      | nodes nts =>
        simp only [ASTValidator.ParserOutcome.isFailure] at hfail
        exact absurd hrc hfail
    · simp [ASTValidator.validate, hp, hrc]

/-- Witness for C3 at a concrete parser behaviour exiting non-zero. -/
theorem C3_witness :
    (ComplianceVerifier.parserFails ("bad code".toList)).isFailure
    ∧ (ASTValidator.validate ComplianceVerifier.parserFails ("bad code".toList)).pass = false
    ∧ (ASTValidator.validate ComplianceVerifier.parserFails
        ("bad code".toList)).vulnerabilities.length = 1
    ∧ (ASTValidator.validate ComplianceVerifier.parserFails
        ("bad code".toList)).node_types = [] :=
  ⟨show (1 : ℤ) ≠ 0 by norm_num,
    C3_validator_fail_closed ComplianceVerifier.parserFails ("bad code".toList)
      (show (1 : ℤ) ≠ 0 by norm_num)⟩

/-- C5.  Both similarity scorers satisfy the contract: the Verifier's scorer
(`metrics.CodeBLEU.compute`) returns exactly 1 on every non-empty `x`
compared with itself and always lands in `[0, 1]`; the blended
`CodeBLEUCalculator.compute` is clamped into `[0, 1]` for every token
sub-score the external BLEU library may return, and with the in-repository
fallback token sub-score it returns exactly 1 on `compute(x, x)`. -/
theorem C5_similarity_identity_and_clamped_range :
    (∀ x : Cmd, x ≠ [] → CodeBLEU.compute x x = 1)
    ∧ (∀ r c : Cmd, 0 ≤ CodeBLEU.compute r c ∧ CodeBLEU.compute r c ≤ 1)
    ∧ (∀ (bleuFn : Cmd → Cmd → ℚ) (nodeFn : Cmd → List Cmd) (r c : Cmd),
        0 ≤ CodeBLEUCalculator.compute bleuFn nodeFn r c
        ∧ CodeBLEUCalculator.compute bleuFn nodeFn r c ≤ 1)
    ∧ (∀ (nodeFn : Cmd → List Cmd) (x : Cmd), x ≠ [] →
        CodeBLEUCalculator.compute CodeBLEUCalculator.fallbackBleu nodeFn x x = 1) :=
  ⟨fun x _ => CodeBLEU.compute_self x,
    fun r c => ⟨CodeBLEU.compute_nonneg r c, CodeBLEU.compute_le_one r c⟩,
    fun bleuFn nodeFn r c => CodeBLEUCalculator.compute_mem_unit bleuFn nodeFn r c,
    fun nodeFn x _ => CodeBLEUCalculator.compute_fallback_self nodeFn x⟩

/-- Witness for C5 at the non-empty command `"a"`. -/
theorem C5_witness :
    (("a".toList : Cmd) ≠ [])
    ∧ CodeBLEU.compute ("a".toList) ("a".toList) = 1
    ∧ CodeBLEUCalculator.compute CodeBLEUCalculator.fallbackBleu nodeFnStub
        ("a".toList) ("a".toList) = 1 :=
  ⟨by decide,
    C5_similarity_identity_and_clamped_range.1 ("a".toList) (by decide),
    C5_similarity_identity_and_clamped_range.2.2.2 nodeFnStub ("a".toList) (by decide)⟩

/-- C6.  The Sanitizer's no-op paths return the input unchanged (and, being
a total function, never throw): a pattern naming neither the
expression-invocation literals nor `DownloadString` rewrites nothing, and an
expression-invocation pattern with no quoted substring in the command also
returns it unmodified. -/
theorem C6_sanitizer_noop_paths :
    (∀ c p : Cmd,
        occursIn ("Invoke-Expression".toList) p = false →
        occursIn ("IEX".toList) p = false →
        occursIn ("DownloadString".toList) p = false →
        SecurityPatterns.apply_parameterized_transformation c p = c)
    ∧ (∀ c p : Cmd,
        (occursIn ("Invoke-Expression".toList) p = true
          ∨ occursIn ("IEX".toList) p = true) →
        occursIn ("DownloadString".toList) p = false →
        SecurityPatterns.searchQuoted c = none →
        SecurityPatterns.apply_parameterized_transformation c p = c) := by
  constructor
  · intro c p h1 h2 h3
    unfold SecurityPatterns.apply_parameterized_transformation
      SecurityPatterns.downloadRule SecurityPatterns.dsPat
    rw [h1, h2, h3]
    simp
  · intro c p h1 h2 hq
    unfold SecurityPatterns.apply_parameterized_transformation
      SecurityPatterns.downloadRule SecurityPatterns.dsPat
    rcases h1 with h1 | h1 <;> rw [h1, hq, h2] <;> simp

/-- Witness for C6: a MEDIUM pattern rewrites nothing, and an
expression-invocation pattern leaves a quote-free command untouched. -/
theorem C6_witness :
    (occursIn ("IEX".toList) ("WindowStyle Hidden".toList) = false
      ∧ SecurityPatterns.apply_parameterized_transformation
          ("Get-Content log.txt".toList) ("WindowStyle Hidden".toList)
          = ("Get-Content log.txt".toList))
    ∧ (SecurityPatterns.searchQuoted ("IEX Get-Process".toList) = none
      ∧ SecurityPatterns.apply_parameterized_transformation
          ("IEX Get-Process".toList) ("IEX".toList) = ("IEX Get-Process".toList)) :=
  ⟨⟨by decide,
      C6_sanitizer_noop_paths.1 ("Get-Content log.txt".toList)
        ("WindowStyle Hidden".toList) (by decide) (by decide) (by decide)⟩,
    ⟨by decide,
      C6_sanitizer_noop_paths.2 ("IEX Get-Process".toList) ("IEX".toList)
        (Or.inr (by decide)) (by decide) (by decide)⟩⟩

/-- C7 (code bug).  `execute_script` deletes its temporary script file only
on the normal return path: the source wraps the process invocation in no
`try`/`finally`, so when `Popen`/`communicate` raises (here: the PowerShell
executable missing from PATH), the exception propagates and the temporary
file is left on disk — contradicting the specified guaranteed cleanup on
all exit paths. -/
theorem C7_temp_file_left_on_exception :
    (SecureExecutor.execute_script SecureExecutor.popenRaises
      ("Write-Output test".toList)).tempFileLeft = true
    ∧ (SecureExecutor.execute_script SecureExecutor.popenRaises
      ("Write-Output test".toList)).result = none
    ∧ (SecureExecutor.execute_script SecureExecutor.popenOk
      ("Write-Output test".toList)).tempFileLeft = false :=
  ⟨rfl, rfl, rfl⟩

/-- C9.  All three aggregate metrics return 0 on empty input lists instead
of dividing by zero. -/
theorem C9_aggregate_metrics_empty_zero :
    (∀ gen : List Cmd, Metrics.vulnerability_introduction_rate [] gen = 0)
    ∧ Metrics.security_compliance_rate [] = 0
    ∧ (∀ res : List Bool, Metrics.functional_correctness_rate [] res = 0) :=
  ⟨fun _ => rfl, rfl, fun _ => rfl⟩

/-- C10.  When the reference has no whitespace-separated tokens, the
Verifier's similarity scorer returns exactly 1 for every candidate, so the
similarity layer can never raise `SEMANTIC_DRIFT` against an empty or
whitespace-only source command. -/
theorem C10_empty_reference_scores_one (source cand : Cmd)
    (h : pySplit source = []) :
    CodeBLEU.compute source cand = 1
    ∧ ComplianceVerifier.layer4Issues source cand = [] :=
  ⟨CodeBLEU.compute_of_ref_no_tokens source cand h,
    ComplianceVerifier.layer4Issues_no_tokens source cand h⟩

/-- Witness for C10: a whitespace-only source against an unrelated
candidate. -/
theorem C10_witness :
    pySplit ("   ".toList) = []
    ∧ CodeBLEU.compute ("   ".toList) ("Invoke-Mimikatz".toList) = 1
    ∧ ComplianceVerifier.layer4Issues ("   ".toList) ("Invoke-Mimikatz".toList) = [] :=
  ⟨by decide,
    (C10_empty_reference_scores_one ("   ".toList) ("Invoke-Mimikatz".toList) (by decide)).1,
    (C10_empty_reference_scores_one ("   ".toList) ("Invoke-Mimikatz".toList) (by decide)).2⟩
